import Mathlib

/-!
Shallow embedding of `src/docker/container.rs` of the TFBToolset repository:
container-lifecycle orchestration for a benchmarking pipeline.

Conventions of the embedding:
* Rust `String`/`&str` values are Lean `String`s; character-level operations
  (`str::split`, `str::replace`) are modelled on `List Char` via `String.data`.
* The container-engine client (`dockurl`) is external: its calls are modelled
  by an `Engine` record of call results, and each orchestration function
  returns the list of engine calls it issued (paired with that call's
  transport success) together with its `Except` result, mirroring the `?`
  control flow of the source.
* `HashMap`s of the inspection payload are modelled as association lists in
  iteration order.
-/

namespace TFB

/-- Rust `str::starts_with` on character lists: `beginsWith pat s` is true
when `pat` is an initial segment of `s`. -/
def beginsWith : List Char → List Char → Bool
  | [], _ => true
  | _ :: _, [] => false
  | p :: ps, c :: cs => p == c && beginsWith ps cs

/-- Occurrence test: true when `pat` occurs as a contiguous substring of `s`. -/
def occursIn (pat : List Char) : List Char → Bool
  | [] => pat.isEmpty
  | c :: cs => beginsWith pat (c :: cs) || occursIn pat cs

/-- Rust `str::split(sep)` on character lists: splits at every occurrence of
the separator; always yields at least one (possibly empty) segment. -/
def splitOnChar (sep : Char) : List Char → List (List Char)
  | [] => [[]]
  | c :: cs =>
    if c = sep then [] :: splitOnChar sep cs
    else
      match splitOnChar sep cs with
      | [] => [[c]]
      | seg :: segs => (c :: seg) :: segs

/-- Step-bounded core of `str::replace`: each recursive step consumes at
least one character whenever the pattern is nonempty, so any
`fuel ≥ s.length` computes the full replacement and the zero-fuel fallback
is unreachable; structured this way (instead of well-founded recursion) so
the function evaluates inside the kernel. -/
def replaceAllFuel (pat repl : List Char) : Nat → List Char → List Char
  | 0, s => s
  | _ + 1, [] => []
  | fuel + 1, c :: cs =>
    if 0 < pat.length ∧ beginsWith pat (c :: cs) = true then
      repl ++ replaceAllFuel pat repl fuel ((c :: cs).drop pat.length)
    else
      c :: replaceAllFuel pat repl fuel cs

/-- Rust `str::replace(pat, repl)` on character lists: every non-overlapping
occurrence of `pat`, scanning left to right, is replaced by `repl`; all other
characters are kept. -/
def replaceAll (pat repl s : List Char) : List Char :=
  replaceAllFuel pat repl s.length s

/-- Rust `String::replace` lifted back to `String`. -/
def replaceStr (pat repl s : String) : String :=
  String.mk (replaceAll pat.data repl.data s.data)

/-- The literal placeholder rewritten in benchmarker commands. -/
def tfb_server_placeholder : String := "tfb-server"

/-- `dockurl::network::NetworkMode`. -/
inductive NetworkMode
  | Bridge
  | Host
deriving DecidableEq

/-- `crate::benchmarker::Mode`, as consumed by `create_verifier_container`. -/
inductive Mode
  | Verify
  | Benchmark
deriving DecidableEq

/-- The fields of `DockerConfig` read by the functions of `container.rs`
(the config is cloned, never mutated). -/
structure DockerConfig where
  use_unix_socket : Bool
  network_mode : NetworkMode
  server_host : String
  database_host : String
  client_docker_host : String
  client_network_id : String
  concurrency_levels : String
  pipeline_concurrency_levels : String
  clean_up : Bool
deriving DecidableEq

/-- The fields of `DockerOrchestration` read by verifier-container creation. -/
structure DockerOrchestration where
  host_internal_port : String
  database_name : Option String
deriving DecidableEq

/-- Modelled from the spec: `BenchmarkCommands` is "the parsed set of
benchmark-tool invocation strings" produced by the command listener; its
definition lives outside `src/` so it is kept as an opaque-content wrapper. -/
structure BenchmarkCommands where
  commands : List String
deriving DecidableEq

/-- One host-port mapping entry of the inspection payload. -/
structure PortMapping where
  host_port : String
deriving DecidableEq

/-- `inspection.config`: the exposed-ports metadata, `none` when the payload
carries no `ExposedPorts` object at all; the map is modelled by its key list
in iteration order. -/
structure InspectionConfig where
  exposed_ports : Option (List String)
deriving DecidableEq

/-- `inspection.network_settings`: the published-port table, an association
list from exposed-port key to its mapping entries. -/
structure NetworkSettings where
  ports : List (String × List PortMapping)
deriving DecidableEq

/-- A container-inspection result, as read by the port-binding resolver. -/
structure InspectionResult where
  config : InspectionConfig
  network_settings : NetworkSettings
deriving DecidableEq

/-- The error variants of `ToolsetError` relevant to `container.rs`, plus a
`DockerError` variant standing for a pass-through transport error of the
named engine call. -/
inductive EngineCall
  | startContainer
  | waitForExit
  | getContainerLogs
  | deleteContainer
  | killContainer
  | deleteImage
  | deleteUnusedImages
deriving DecidableEq

inductive ToolsetError
  | ExposePortError
  | ContainerPortMappingInspectionError
  | FailedBenchmarkCommandRetrievalError
  | DockerError (call : EngineCall)
deriving DecidableEq

/-- Outcome of the port-binding resolver; `panicked` marks the outcome of the
`unwrap()` in the `Host` arm being applied to `None`. -/
inductive PortBindingsOutcome
  | ok (binding : String × String)
  | error (e : ToolsetError)
  | panicked
deriving DecidableEq

/-- The loop over `exposed_ports.keys()` inside
`get_port_bindings_for_container`: per key, `Bridge` mode looks the key up in
the published-port table and returns the first mapping's host port paired
with the key's first `/`-segment, falling through to the next key when any
lookup fails; `Host` mode immediately returns the first `/`-segment, twice,
via `unwrap()`. The empty key list reaches the trailing
`ContainerPortMappingInspectionError`. -/
def port_loop (mode : NetworkMode) (ns : NetworkSettings) : List String → PortBindingsOutcome
  | [] => PortBindingsOutcome.error ToolsetError.ContainerPortMappingInspectionError
  | key :: rest =>
    let inner_port : List String := (splitOnChar '/' key.data).map String.mk
    match mode with
    | NetworkMode.Bridge =>
      match ns.ports.lookup key with
      | some mappings =>
        match mappings.head? with
        | some port_mapping =>
          match inner_port.head? with
          | some ip => PortBindingsOutcome.ok (port_mapping.host_port, ip)
          | none => port_loop mode ns rest
        | none => port_loop mode ns rest
      | none => port_loop mode ns rest
    | NetworkMode.Host =>
      match inner_port.head? with
      | some ip => PortBindingsOutcome.ok (ip, ip)
      | none => PortBindingsOutcome.panicked

/-- `get_port_bindings_for_container`, given the inspection result already
fetched (the `inspect_container` transport call is external): no
exposed-ports metadata yields `ExposePortError`, otherwise the key loop
runs. Only `network_mode` of the config is consulted. -/
def get_port_bindings_for_container (docker_config : DockerConfig)
    (inspection : InspectionResult) : PortBindingsOutcome :=
  match inspection.config.exposed_ports with
  | some exposed_ports =>
      port_loop docker_config.network_mode inspection.network_settings exposed_ports
  | none => PortBindingsOutcome.error ToolsetError.ExposePortError

/-- The mapping list the published-port table holds for a key (empty when the
key is absent). -/
def mappingsFor (ns : NetworkSettings) (key : String) : List PortMapping :=
  (ns.ports.lookup key).getD []

/-- The first `/`-segment of an exposed-port key, e.g. `"8080"` for
`"8080/tcp"`. -/
def firstSplitSegment (key : String) : String :=
  String.mk ((splitOnChar '/' key.data).headD [])

/-- One `Ulimit` entry of the creation host configuration. -/
structure Ulimit where
  name : String
  soft : Nat
  hard : Nat
deriving DecidableEq

/-- `dockurl` host configuration, restricted to the fields `container.rs`
sets. -/
structure HostConfig where
  network_mode : Option NetworkMode := none
  extra_hosts : List (String × String) := []
  sysctls : List (String × String) := []
  ulimits : List Ulimit := []
  publish_all_ports : Bool := false
  privileged : Bool := false
deriving DecidableEq

/-- `dockurl` per-endpoint network settings of the creation request
(`alias_name` embeds the `alias` field, whose name Lean reserves). -/
structure EndpointSettings where
  network_id : String := ""
  alias_name : Option String := none
deriving DecidableEq

/-- `dockurl` container-creation options, restricted to the fields
`container.rs` sets; `env` accumulates `add_env` calls in order. -/
structure CreateOptions where
  image : String := ""
  hostname : String := ""
  domain_name : String := ""
  tty : Bool := false
  attach_stderr : Bool := false
  env : List (String × String) := []
  cmds : List String := []
  host_config : HostConfig := {}
  networking : EndpointSettings := {}
deriving DecidableEq

/-- The creation request an orchestration function hands to the engine: the
options plus the transport target (the engine's `create_container` call
itself is external). -/
structure CreateRequest where
  options : CreateOptions
  docker_host : String
  use_unix_socket : Bool
deriving DecidableEq

/-- `create_benchmarker_container`: fixed benchmarker image, tty and stderr
attached, each command string rewritten by substituting the `tfb-server`
placeholder with the configured server host, host configuration per
networking mode with the backlog sysctl and a 65535/65535 `nofile` limit,
created on the client docker host in the client network. -/
def create_benchmarker_container (config : DockerConfig) (command_strs : List String) :
    CreateRequest :=
  let command : List String :=
    command_strs.map (fun command_str =>
      replaceStr tfb_server_placeholder config.server_host command_str)
  let host_config0 : HostConfig :=
    match config.network_mode with
    | NetworkMode.Bridge => { network_mode := some NetworkMode.Bridge }
    | NetworkMode.Host =>
      { extra_hosts := [("tfb-server", config.server_host)],
        network_mode := some NetworkMode.Host }
  let host_config : HostConfig :=
    { host_config0 with
      sysctls := [("net.core.somaxconn", "65535")],
      ulimits := [{ name := "nofile", soft := 65535, hard := 65535 }] }
  { options :=
      { image := "techempower/tfb.verifier",
        tty := true,
        attach_stderr := true,
        cmds := command,
        host_config := host_config,
        networking := { network_id := config.client_network_id } },
    docker_host := config.client_docker_host,
    use_unix_socket := config.use_unix_socket }

/-- The string `add_env("MODE", ...)` receives for a `Mode`. -/
def mode_env_value : Mode → String
  | Mode.Verify => "verify"
  | Mode.Benchmark => "benchmark"

/-- `create_verifier_container`: fixed verifier image, the environment
variables `MODE`/`PORT`/`ENDPOINT`/`TEST_TYPE`/`CONCURRENCY_LEVELS`/
`PIPELINE_CONCURRENCY_LEVELS` in that order plus `DATABASE` when the
orchestration carries a database name, host configuration per networking
mode with all ports published. `test_type.1` is the Rust tuple's `.0` (the
test-type name), `test_type.2` its `.1` (the endpoint). -/
def create_verifier_container (config : DockerConfig) (orchestration : DockerOrchestration)
    (mode : Mode) (test_type : String × String) : CreateRequest :=
  let env0 : List (String × String) :=
    [("MODE", mode_env_value mode),
     ("PORT", orchestration.host_internal_port),
     ("ENDPOINT", test_type.2),
     ("TEST_TYPE", test_type.1),
     ("CONCURRENCY_LEVELS", config.concurrency_levels),
     ("PIPELINE_CONCURRENCY_LEVELS", config.pipeline_concurrency_levels)]
  let env : List (String × String) :=
    match orchestration.database_name with
    | some database_name => env0 ++ [("DATABASE", database_name)]
    | none => env0
  let host_config0 : HostConfig :=
    match config.network_mode with
    | NetworkMode.Bridge => { network_mode := some NetworkMode.Bridge }
    | NetworkMode.Host =>
      { extra_hosts := [("tfb-server", config.server_host),
                        ("tfb-database", config.database_host)],
        network_mode := some NetworkMode.Host }
  let host_config : HostConfig := { host_config0 with publish_all_ports := true }
  { options :=
      { image := "techempower/tfb.verifier",
        tty := true,
        env := env,
        host_config := host_config,
        networking := { network_id := config.client_network_id } },
    docker_host := config.client_docker_host,
    use_unix_socket := config.use_unix_socket }

/-- `create_database_verifier_container`: same fixed verifier image, `MODE`
set to `"database"`, placeholder values for the unused per-test variables,
and `DATABASE` always present. -/
def create_database_verifier_container (config : DockerConfig) (database_name : String) :
    CreateRequest :=
  let env : List (String × String) :=
    [("MODE", "database"),
     ("PORT", "0"),
     ("ENDPOINT", ""),
     ("TEST_TYPE", ""),
     ("CONCURRENCY_LEVELS", config.concurrency_levels),
     ("PIPELINE_CONCURRENCY_LEVELS", config.pipeline_concurrency_levels),
     ("DATABASE", database_name)]
  let host_config0 : HostConfig :=
    match config.network_mode with
    | NetworkMode.Bridge => { network_mode := some NetworkMode.Bridge }
    | NetworkMode.Host =>
      { extra_hosts := [("tfb-server", config.server_host),
                        ("tfb-database", config.database_host)],
        network_mode := some NetworkMode.Host }
  let host_config : HostConfig := { host_config0 with publish_all_ports := true }
  { options :=
      { image := "techempower/tfb.verifier",
        tty := true,
        env := env,
        host_config := host_config,
        networking := { network_id := config.client_network_id } },
    docker_host := config.client_docker_host,
    use_unix_socket := config.use_unix_socket }

/-- Transport results the external engine supplies to one orchestration run:
a success flag per fallible call, plus the typed value the command listener
exposes after `get_container_logs` (`listener_commands = none` models the
listener finishing without producing `BenchmarkCommands`). -/
structure Engine where
  start_ok : Bool
  wait_ok : Bool
  logs_transport_ok : Bool
  listener_commands : Option BenchmarkCommands
  delete_ok : Bool
  kill_ok : Bool
  delete_image_ok : Bool
  delete_unused_ok : Bool
deriving DecidableEq

/-- `start_benchmark_command_retrieval_container`: start, wait for exit,
fetch historical logs through the command listener, optionally delete the
container, then return the listener's `BenchmarkCommands` or fail with
`FailedBenchmarkCommandRetrievalError`. Each `?`-propagated engine call is
recorded in the returned trace with its transport success; a failing call
short-circuits with the corresponding `DockerError`. -/
def start_benchmark_command_retrieval_container (docker_config : DockerConfig)
    (eng : Engine) :
    List (EngineCall × Bool) × Except ToolsetError BenchmarkCommands :=
  if eng.start_ok = false then
    ([(EngineCall.startContainer, false)],
     Except.error (ToolsetError.DockerError EngineCall.startContainer))
  else if eng.wait_ok = false then
    ([(EngineCall.startContainer, true), (EngineCall.waitForExit, false)],
     Except.error (ToolsetError.DockerError EngineCall.waitForExit))
  else if eng.logs_transport_ok = false then
    ([(EngineCall.startContainer, true), (EngineCall.waitForExit, true),
      (EngineCall.getContainerLogs, false)],
     Except.error (ToolsetError.DockerError EngineCall.getContainerLogs))
  else
    let t0 : List (EngineCall × Bool) :=
      [(EngineCall.startContainer, true), (EngineCall.waitForExit, true),
       (EngineCall.getContainerLogs, true)]
    if docker_config.clean_up then
      if eng.delete_ok = false then
        (t0 ++ [(EngineCall.deleteContainer, false)],
         Except.error (ToolsetError.DockerError EngineCall.deleteContainer))
      else
        (t0 ++ [(EngineCall.deleteContainer, true)],
         match eng.listener_commands with
         | some commands => Except.ok commands
         | none => Except.error ToolsetError.FailedBenchmarkCommandRetrievalError)
    else
      (t0,
       match eng.listener_commands with
       | some commands => Except.ok commands
       | none => Except.error ToolsetError.FailedBenchmarkCommandRetrievalError)

/-- `DockerContainerIdFuture`: the poll-based state holder for a container
whose id arrives asynchronously. -/
structure DockerContainerIdFuture where
  requires_wait_to_stop : Bool
  container_id : Option String
  image_id : Option String
  docker_host : String
deriving DecidableEq

/-- Modelled from the spec: `DockerContainerIdFuture::poll` lives outside
`src/`; per §4.4 it reports ready once the container id is known, or once it
is determined no id will ever arrive (the future does not require a wait),
and pending otherwise. -/
def DockerContainerIdFuture.poll (st : DockerContainerIdFuture) : Bool :=
  if st.requires_wait_to_stop then st.container_id.isSome else true

/-- Modelled from the spec: `DockerContainerIdFuture::unregister` lives
outside `src/`; per §4.4 it moves the future to the *unregistered* state —
no container id recorded, no wait required. -/
def DockerContainerIdFuture.unregister (st : DockerContainerIdFuture) :
    DockerContainerIdFuture :=
  { st with requires_wait_to_stop := false, container_id := none }

/-- `stop_docker_container_future`, single-threaded semantics: when the
future requires a wait, the one-second poll loop either never finishes (the
state cannot change under this embedding, so a pending poll means divergence,
modelled as `none`) or proceeds to best-effort teardown: kill the container
(result discarded by `unwrap_or`), delete it when cleanup is enabled (result
discarded), unregister, then — when an image id is recorded and cleanup is
enabled — delete that image and sweep dangling images (results discarded),
and finally clear the image id. Returns the issued calls with their results
and the final state. -/
def stop_docker_container_future (use_unix_socket docker_clean_up : Bool) (eng : Engine)
    (st : DockerContainerIdFuture) :
    Option (List (EngineCall × Bool) × DockerContainerIdFuture) :=
  if st.requires_wait_to_stop then
    if st.poll then
      let step1 : List (EngineCall × Bool) × DockerContainerIdFuture :=
        match st.container_id with
        | some _ =>
          ((EngineCall.killContainer, eng.kill_ok) ::
            (if docker_clean_up then [(EngineCall.deleteContainer, eng.delete_ok)] else []),
           st.unregister)
        | none => ([], st)
      let image_trace : List (EngineCall × Bool) :=
        match step1.2.image_id with
        | some _ =>
          if docker_clean_up then
            [(EngineCall.deleteImage, eng.delete_image_ok),
             (EngineCall.deleteUnusedImages, eng.delete_unused_ok)]
          else []
        | none => []
      some (step1.1 ++ image_trace, { step1.2 with image_id := none })
    else none
  else some ([], st)

/-- The actions of the start/attach protocol whose interleavings matter. -/
inductive ContainerAct
  | spawnAttachThread
  | attachToContainer
  | startContainer
  | waitForExit
deriving DecidableEq

/-- The body of the thread `thread::spawn` creates in `start_container` and
`start_verification_container`: a single blocking `attach_to_container`
call. -/
def attach_thread_body : List ContainerAct := [ContainerAct.attachToContainer]

/-- The engine-visible actions of the main thread of `start_container`:
spawn the attach thread, then issue start. -/
def start_container_program : List ContainerAct :=
  [ContainerAct.spawnAttachThread, ContainerAct.startContainer]

/-- The engine-visible actions of the main thread of
`start_verification_container` up to the exit wait: spawn the attach thread,
issue start, then wait for the container to exit. -/
def start_verification_program : List ContainerAct :=
  [ContainerAct.spawnAttachThread, ContainerAct.startContainer, ContainerAct.waitForExit]

/-- Interleaving semantics of one main thread plus the thread it spawns:
`ThreadExec main spawned trace` holds when `trace` is a complete schedule of
the remaining `main` actions and the `spawned` thread (`none` before
`thread::spawn` runs, `some remaining` afterwards). `thread::spawn` makes
the attach body runnable but imposes no ordering between it and the
spawner's subsequent actions. -/
inductive ThreadExec :
    List ContainerAct → Option (List ContainerAct) → List ContainerAct → Prop
  | done : ThreadExec [] (some []) []
  | spawnStep (m t : List ContainerAct) :
      ThreadExec m (some attach_thread_body) t →
      ThreadExec (ContainerAct.spawnAttachThread :: m) none
        (ContainerAct.spawnAttachThread :: t)
  | mainStep (a : ContainerAct) (m : List ContainerAct)
      (sp : Option (List ContainerAct)) (t : List ContainerAct) :
      a ≠ ContainerAct.spawnAttachThread →
      ThreadExec m sp t →
      ThreadExec (a :: m) sp (a :: t)
  | spawnedStep (a : ContainerAct) (m sp t : List ContainerAct) :
      ThreadExec m (some sp) t →
      ThreadExec m (some (a :: sp)) (a :: t)

/-- A concrete configuration used to evaluate the embedding at specific
inputs. -/
def sampleConfig : DockerConfig :=
  { use_unix_socket := true,
    network_mode := NetworkMode.Bridge,
    server_host := "10.0.0.1",
    database_host := "10.0.0.2",
    client_docker_host := "tcp://10.0.0.3:2375",
    client_network_id := "tfbnet",
    concurrency_levels := "16,32,64",
    pipeline_concurrency_levels := "256",
    clean_up := true }

/-- A concrete inspection result: one exposed port `8080/tcp` published at
host port `32768`. -/
def sampleInspection : InspectionResult :=
  { config := { exposed_ports := some ["8080/tcp"] },
    network_settings := { ports := [("8080/tcp", [{ host_port := "32768" }])] } }

/-- A concrete engine behavior in which every transport call succeeds and the
command listener produces a result. -/
def sampleEngine : Engine :=
  { start_ok := true, wait_ok := true, logs_transport_ok := true,
    listener_commands := some { commands := ["wrk -c 256 http://tfb-server:8080/json"] },
    delete_ok := true, kill_ok := true, delete_image_ok := true, delete_unused_ok := true }

/-! ## Helper lemmas -/

theorem splitOnChar_ne_nil (sep : Char) (s : List Char) : splitOnChar sep s ≠ [] := by
  induction s with
  | nil => simp [splitOnChar]
  | cons c cs ih =>
    simp only [splitOnChar]
    by_cases hc : c = sep
    · simp [hc]
    · rw [if_neg hc]
      rcases hsplit : splitOnChar sep cs with _ | ⟨seg, segs⟩
      · exact absurd hsplit ih
      · simp

theorem splitOnChar_exists_cons (sep : Char) (s : List Char) :
    ∃ seg segs, splitOnChar sep s = seg :: segs := by
  rcases hsplit : splitOnChar sep s with _ | ⟨seg, segs⟩
  · exact absurd hsplit (splitOnChar_ne_nil sep s)
  · exact ⟨seg, segs, rfl⟩

theorem port_loop_host_cons (ns : NetworkSettings) (key : String) (rest : List String) :
    port_loop NetworkMode.Host ns (key :: rest) =
      PortBindingsOutcome.ok (firstSplitSegment key, firstSplitSegment key) := by
  obtain ⟨seg, segs, hsplit⟩ := splitOnChar_exists_cons '/' key.data
  simp [port_loop, hsplit, firstSplitSegment]

theorem port_loop_host_indep (ns ns2 : NetworkSettings) (keys : List String) :
    port_loop NetworkMode.Host ns keys = port_loop NetworkMode.Host ns2 keys := by
  cases keys with
  | nil => rfl
  | cons key rest => rw [port_loop_host_cons, port_loop_host_cons]

theorem port_loop_ne_panicked (mode : NetworkMode) (ns : NetworkSettings)
    (keys : List String) : port_loop mode ns keys ≠ PortBindingsOutcome.panicked := by
  induction keys with
  | nil => simp [port_loop]
  | cons key rest ih =>
    obtain ⟨seg, segs, hsplit⟩ := splitOnChar_exists_cons '/' key.data
    cases mode with
    | Host => rw [port_loop_host_cons]; simp
    | Bridge =>
      simp only [port_loop, hsplit]
      rcases hl : ns.ports.lookup key with _ | mappings
      · simpa using ih
      · rcases hh : mappings.head? with _ | pm
        · simpa [hh] using ih
        · simp [hh]

theorem port_loop_ne_expose (mode : NetworkMode) (ns : NetworkSettings)
    (keys : List String) :
    port_loop mode ns keys ≠ PortBindingsOutcome.error ToolsetError.ExposePortError := by
  induction keys with
  | nil => simp [port_loop]
  | cons key rest ih =>
    obtain ⟨seg, segs, hsplit⟩ := splitOnChar_exists_cons '/' key.data
    cases mode with
    | Host => rw [port_loop_host_cons]; simp
    | Bridge =>
      simp only [port_loop, hsplit]
      rcases hl : ns.ports.lookup key with _ | mappings
      · simpa using ih
      · rcases hh : mappings.head? with _ | pm
        · simpa [hh] using ih
        · simp [hh]

theorem port_loop_bridge_found (ns : NetworkSettings) (key : String)
    (rest : List String) (pm : PortMapping) (pms : List PortMapping)
    (hlookup : ns.ports.lookup key = some (pm :: pms)) :
    port_loop NetworkMode.Bridge ns (key :: rest) =
      PortBindingsOutcome.ok (pm.host_port, firstSplitSegment key) := by
  obtain ⟨seg, segs, hsplit⟩ := splitOnChar_exists_cons '/' key.data
  simp [port_loop, hsplit, hlookup, firstSplitSegment]

theorem port_loop_bridge_miss (ns : NetworkSettings) (key : String)
    (rest : List String) (hmiss : mappingsFor ns key = []) :
    port_loop NetworkMode.Bridge ns (key :: rest) = port_loop NetworkMode.Bridge ns rest := by
  obtain ⟨seg, segs, hsplit⟩ := splitOnChar_exists_cons '/' key.data
  unfold mappingsFor at hmiss
  simp only [port_loop, hsplit]
  rcases hlookup : ns.ports.lookup key with _ | mappings
  · rfl
  · rw [hlookup] at hmiss
    simp at hmiss
    subst hmiss
    rfl

theorem port_loop_bridge_err_iff (ns : NetworkSettings) (keys : List String) :
    port_loop NetworkMode.Bridge ns keys =
        PortBindingsOutcome.error ToolsetError.ContainerPortMappingInspectionError ↔
      ∀ k ∈ keys, mappingsFor ns k = [] := by
  induction keys with
  | nil => simp [port_loop]
  | cons key rest ih =>
    rcases hm : mappingsFor ns key with _ | ⟨pm, pms⟩
    · rw [port_loop_bridge_miss ns key rest hm, ih]
      simp [hm]
    · have hlookup : ns.ports.lookup key = some (pm :: pms) := by
        unfold mappingsFor at hm
        rcases hl : ns.ports.lookup key with _ | mappings
        · rw [hl] at hm; simp at hm
        · rw [hl] at hm; simpa using hm
      rw [port_loop_bridge_found ns key rest pm pms hlookup]
      simp [hm]

theorem replaceAllFuel_congr (pat repl : List Char) :
    ∀ (fuel1 fuel2 : Nat) (s : List Char), s.length ≤ fuel1 → s.length ≤ fuel2 →
      replaceAllFuel pat repl fuel1 s = replaceAllFuel pat repl fuel2 s := by
  intro fuel1
  induction fuel1 with
  | zero =>
    intro fuel2 s h1 h2
    have hs : s = [] := List.length_eq_zero.mp (Nat.le_zero.mp h1)
    subst hs
    cases fuel2 <;> rfl
  | succ f1 ih =>
    intro fuel2 s h1 h2
    cases s with
    | nil => cases fuel2 <;> rfl
    | cons c cs =>
      cases fuel2 with
      | zero => exact absurd h2 (by simp)
      | succ f2 =>
        have h1c : cs.length + 1 ≤ f1 + 1 := by simpa using h1
        have h2c : cs.length + 1 ≤ f2 + 1 := by simpa using h2
        simp only [replaceAllFuel]
        by_cases hcond : 0 < pat.length ∧ beginsWith pat (c :: cs) = true
        · have hp : 0 < pat.length := hcond.1
          rw [if_pos hcond, if_pos hcond]
          congr 1
          apply ih
          · simp only [List.length_drop, List.length_cons]
            omega
          · simp only [List.length_drop, List.length_cons]
            omega
        · rw [if_neg hcond, if_neg hcond]
          congr 1
          apply ih
          · omega
          · omega

theorem replaceAll_nil (pat repl : List Char) : replaceAll pat repl [] = [] := rfl

theorem replaceAll_cons_pos (pat repl : List Char) (c : Char) (cs : List Char)
    (hlen : 0 < pat.length) (hpre : beginsWith pat (c :: cs) = true) :
    replaceAll pat repl (c :: cs) = repl ++ replaceAll pat repl ((c :: cs).drop pat.length) := by
  show replaceAllFuel pat repl (cs.length + 1) (c :: cs) = _
  simp only [replaceAllFuel]
  rw [if_pos ⟨hlen, hpre⟩]
  congr 1
  apply replaceAllFuel_congr
  · simp only [List.length_drop, List.length_cons]
    omega
  · exact Nat.le_refl _

theorem replaceAll_cons_neg (pat repl : List Char) (c : Char) (cs : List Char)
    (hpre : beginsWith pat (c :: cs) = false) :
    replaceAll pat repl (c :: cs) = c :: replaceAll pat repl cs := by
  show replaceAllFuel pat repl (cs.length + 1) (c :: cs) = _
  simp only [replaceAllFuel]
  rw [if_neg]
  · rfl
  · rintro ⟨-, hcontra⟩
    rw [hpre] at hcontra
    exact Bool.false_ne_true hcontra

theorem replaceAll_of_not_occurs (pat repl s : List Char)
    (h : occursIn pat s = false) : replaceAll pat repl s = s := by
  induction s with
  | nil => exact replaceAll_nil pat repl
  | cons c cs ih =>
    simp only [occursIn, Bool.or_eq_false_iff] at h
    rw [replaceAll_cons_neg pat repl c cs h.1, ih h.2]

theorem beginsWith_append_self (pat b : List Char) :
    beginsWith pat (pat ++ b) = true := by
  induction pat with
  | nil => rfl
  | cons p ps ih => simp [beginsWith, ih]

theorem replaceAll_leftmost (pat repl a b : List Char) (hlen : 0 < pat.length)
    (hfirst : ∀ i, i < a.length → beginsWith pat ((a ++ pat ++ b).drop i) = false) :
    replaceAll pat repl (a ++ pat ++ b) = a ++ repl ++ replaceAll pat repl b := by
  induction a with
  | nil =>
    rcases pat with _ | ⟨p, ps⟩
    · exact absurd hlen (by simp)
    · simp only [List.nil_append]
      have hshape : (p :: ps) ++ b = p :: (ps ++ b) := rfl
      rw [hshape, replaceAll_cons_pos (p :: ps) repl p (ps ++ b) hlen
        (by rw [← hshape]; exact beginsWith_append_self (p :: ps) b)]
      rw [← hshape, List.drop_left]
  | cons c a2 ih =>
    have h0 : beginsWith pat (c :: (a2 ++ pat ++ b)) = false := by
      have := hfirst 0 (by simp)
      simpa using this
    have hstep : ((c :: a2) ++ pat ++ b) = c :: (a2 ++ pat ++ b) := rfl
    rw [hstep, replaceAll_cons_neg pat repl c (a2 ++ pat ++ b) h0]
    rw [ih (fun i hi => by
      have := hfirst (i + 1) (by simpa using Nat.succ_lt_succ hi)
      simpa using this)]
    rfl

theorem stop_of_no_wait (sock cleanup : Bool) (eng : Engine)
    (st : DockerContainerIdFuture) (h : st.requires_wait_to_stop = false) :
    stop_docker_container_future sock cleanup eng st = some ([], st) := by
  simp [stop_docker_container_future, h]

theorem stop_final_no_wait (sock cleanup : Bool) (eng : Engine)
    (st st2 : DockerContainerIdFuture) (t : List (EngineCall × Bool))
    (h : stop_docker_container_future sock cleanup eng st = some (t, st2)) :
    st2.requires_wait_to_stop = false := by
  obtain ⟨rw_flag, cid, img, host⟩ := st
  cases rw_flag
  · rw [stop_of_no_wait sock cleanup eng _ rfl] at h
    have h2 : st2 = ⟨false, cid, img, host⟩ := by
      injection h with hpair
      exact congrArg Prod.snd hpair.symm
    rw [h2]
  · cases cid with
    | none =>
      simp [stop_docker_container_future, DockerContainerIdFuture.poll] at h
    | some c =>
      simp only [stop_docker_container_future, DockerContainerIdFuture.poll,
        DockerContainerIdFuture.unregister, Option.isSome_some, if_true] at h
      have h2 : st2 = ⟨false, none, none, host⟩ := by
        injection h with hpair
        exact congrArg Prod.snd hpair.symm
      rw [h2]

/-! ## Claims -/

/-- Claim C2: in Bridge mode, an inspection result exposing port `"8080/tcp"`
whose first host-port mapping entry is `"32768"` resolves to
`("32768", "8080")` — the host port paired with the internal port stripped of
its protocol suffix; in Host mode, the same exposed port resolves to
`("8080", "8080")`, the internal and host-visible ports being identical. -/
theorem C2_port_resolution (cfgB cfgH : DockerConfig) (insp : InspectionResult)
    (pm : PortMapping) (pms : List PortMapping)
    (hmodeB : cfgB.network_mode = NetworkMode.Bridge)
    (hmodeH : cfgH.network_mode = NetworkMode.Host)
    (hexp : insp.config.exposed_ports = some ["8080/tcp"])
    (hlookup : insp.network_settings.ports.lookup "8080/tcp" = some (pm :: pms))
    (hhost : pm.host_port = "32768") :
    get_port_bindings_for_container cfgB insp =
      PortBindingsOutcome.ok ("32768", "8080") ∧
    ∀ insp2 : InspectionResult, insp2.config.exposed_ports = some ["8080/tcp"] →
      get_port_bindings_for_container cfgH insp2 =
        PortBindingsOutcome.ok ("8080", "8080") := by
  constructor
  · simp only [get_port_bindings_for_container, hexp, hmodeB]
    rw [port_loop_bridge_found _ _ _ pm pms hlookup, hhost]
    decide
  · intro insp2 h2
    simp only [get_port_bindings_for_container, h2, hmodeH]
    rw [port_loop_host_cons]
    decide

/-- Witness for C2 at the sample inspection. -/
theorem C2_port_resolution_witness :
    get_port_bindings_for_container sampleConfig sampleInspection =
      PortBindingsOutcome.ok ("32768", "8080") ∧
    get_port_bindings_for_container
        { sampleConfig with network_mode := NetworkMode.Host } sampleInspection =
      PortBindingsOutcome.ok ("8080", "8080") := by
  have h := C2_port_resolution sampleConfig
    { sampleConfig with network_mode := NetworkMode.Host } sampleInspection
    { host_port := "32768" } [] rfl rfl rfl (by decide) rfl
  exact ⟨h.1, h.2 sampleInspection rfl⟩

/-- Counterexample to claim C4: in Host mode, an inspection result with an
exposed-port key present but an empty mapping list for every key resolves
successfully instead of failing with `ContainerPortMappingInspectionError`. -/
theorem C4_counterexample :
    ({ sampleInspection with network_settings := { ports := [] } } :
        InspectionResult).config.exposed_ports = some ["8080/tcp"] ∧
    (∀ k ∈ ["8080/tcp"], mappingsFor { ports := [] } k = []) ∧
    get_port_bindings_for_container
        { sampleConfig with network_mode := NetworkMode.Host }
        { sampleInspection with network_settings := { ports := [] } } =
      PortBindingsOutcome.ok ("8080", "8080") := by
  refine ⟨rfl, by decide, by decide⟩

/-- Claim C4 (amended): resolution fails with `ExposePortError` exactly when
the inspection result carries no exposed-ports metadata at all; with exposed
ports present, it fails with `ContainerPortMappingInspectionError` exactly
when, in Bridge mode, every exposed-port key's mapping list is empty, and,
in Host mode, the exposed-ports table has no keys at all. -/
theorem C4_error_characterization (cfg : DockerConfig) (insp : InspectionResult) :
    (get_port_bindings_for_container cfg insp =
        PortBindingsOutcome.error ToolsetError.ExposePortError ↔
      insp.config.exposed_ports = none) ∧
    (∀ keys, insp.config.exposed_ports = some keys →
      cfg.network_mode = NetworkMode.Bridge →
      (get_port_bindings_for_container cfg insp =
          PortBindingsOutcome.error ToolsetError.ContainerPortMappingInspectionError ↔
        ∀ k ∈ keys, mappingsFor insp.network_settings k = [])) ∧
    (∀ keys, insp.config.exposed_ports = some keys →
      cfg.network_mode = NetworkMode.Host →
      (get_port_bindings_for_container cfg insp =
          PortBindingsOutcome.error ToolsetError.ContainerPortMappingInspectionError ↔
        keys = [])) := by
  refine ⟨?_, ?_, ?_⟩
  · rcases hexp : insp.config.exposed_ports with _ | keys
    · simp [get_port_bindings_for_container, hexp]
    · simp only [get_port_bindings_for_container, hexp]
      constructor
      · intro h
        exact absurd h (port_loop_ne_expose _ _ _)
      · intro h
        cases h
  · intro keys hexp hmode
    simp only [get_port_bindings_for_container, hexp, hmode]
    exact port_loop_bridge_err_iff _ keys
  · intro keys hexp hmode
    simp only [get_port_bindings_for_container, hexp, hmode]
    cases keys with
    | nil => simp [port_loop]
    | cons key rest =>
      rw [port_loop_host_cons]
      simp

/-- Witness for the amended C4 at concrete inspections. -/
theorem C4_error_characterization_witness :
    get_port_bindings_for_container sampleConfig
        { sampleInspection with network_settings := { ports := [] } } =
      PortBindingsOutcome.error ToolsetError.ContainerPortMappingInspectionError ∧
    get_port_bindings_for_container sampleConfig
        { sampleInspection with config := { exposed_ports := none } } =
      PortBindingsOutcome.error ToolsetError.ExposePortError := by
  constructor
  · exact ((C4_error_characterization sampleConfig
      { sampleInspection with network_settings := { ports := [] } }).2.1
      ["8080/tcp"] rfl rfl).mpr (by decide)
  · exact (C4_error_characterization sampleConfig
      { sampleInspection with config := { exposed_ports := none } }).1.mpr rfl

/-- Claim C10: in Host networking mode the resolver never consults the
published-port table (its result is invariant under replacing the network
settings), returns Ok on the first exposed-port key whenever at least one
key is present, and the unwrap of the first `/`-split segment cannot panic
because splitting any string yields at least one segment. -/
theorem C10_host_mode_safety (cfg : DockerConfig)
    (hmode : cfg.network_mode = NetworkMode.Host) :
    (∀ (insp : InspectionResult) (ns2 : NetworkSettings),
      get_port_bindings_for_container cfg { insp with network_settings := ns2 } =
        get_port_bindings_for_container cfg insp) ∧
    (∀ (insp : InspectionResult) (key : String) (rest : List String),
      insp.config.exposed_ports = some (key :: rest) →
      get_port_bindings_for_container cfg insp =
        PortBindingsOutcome.ok (firstSplitSegment key, firstSplitSegment key)) ∧
    (∀ insp : InspectionResult,
      get_port_bindings_for_container cfg insp ≠ PortBindingsOutcome.panicked) ∧
    (∀ (sep : Char) (s : List Char), splitOnChar sep s ≠ []) := by
  refine ⟨?_, ?_, ?_, fun sep s => splitOnChar_ne_nil sep s⟩
  · intro insp ns2
    rcases hexp : insp.config.exposed_ports with _ | keys
    · have hexp2 : ({ insp with network_settings := ns2 } :
          InspectionResult).config.exposed_ports = none := hexp
      simp [get_port_bindings_for_container, hexp, hexp2]
    · have hexp2 : ({ insp with network_settings := ns2 } :
          InspectionResult).config.exposed_ports = some keys := hexp
      simp only [get_port_bindings_for_container, hexp, hexp2, hmode]
      exact port_loop_host_indep _ _ keys
  · intro insp key rest hexp
    simp only [get_port_bindings_for_container, hexp, hmode]
    exact port_loop_host_cons _ key rest
  · intro insp
    rcases hexp : insp.config.exposed_ports with _ | keys
    · simp [get_port_bindings_for_container, hexp]
    · simp only [get_port_bindings_for_container, hexp, hmode]
      exact port_loop_ne_panicked _ _ keys

/-- Witness for C10 at the sample inspection, run in Host mode. -/
theorem C10_host_mode_safety_witness :
    get_port_bindings_for_container { sampleConfig with network_mode := NetworkMode.Host }
        sampleInspection = PortBindingsOutcome.ok ("8080", "8080") ∧
    splitOnChar '/' ("8080/tcp").data ≠ [] := by
  have h := C10_host_mode_safety
    { sampleConfig with network_mode := NetworkMode.Host } rfl
  refine ⟨?_, h.2.2.2 '/' ("8080/tcp").data⟩
  have h2 := h.2.1 sampleInspection "8080/tcp" [] rfl
  rw [h2]
  decide

/-- Claim C5: `create_benchmarker_container` rewrites each command string by
replacing the literal placeholder `tfb-server` with the configured server
host; a command string not containing the placeholder is passed through
identical, and at a leftmost placeholder occurrence exactly the placeholder
characters are replaced, every surrounding character being preserved. -/
theorem C5_command_substitution (config : DockerConfig) (command_strs : List String) :
    ((create_benchmarker_container config command_strs).options.cmds =
      command_strs.map (replaceStr tfb_server_placeholder config.server_host)) ∧
    (∀ s : String, occursIn tfb_server_placeholder.data s.data = false →
      replaceStr tfb_server_placeholder config.server_host s = s) ∧
    (∀ a b : List Char,
      (∀ i, i < a.length →
        beginsWith tfb_server_placeholder.data
          ((a ++ tfb_server_placeholder.data ++ b).drop i) = false) →
      replaceAll tfb_server_placeholder.data config.server_host.data
          (a ++ tfb_server_placeholder.data ++ b) =
        a ++ config.server_host.data ++
          replaceAll tfb_server_placeholder.data config.server_host.data b) := by
  refine ⟨rfl, ?_, ?_⟩
  · intro s hs
    unfold replaceStr
    rw [replaceAll_of_not_occurs _ _ _ hs]
  · intro a b hfirst
    exact replaceAll_leftmost _ _ a b (by decide) hfirst

/-- Witness for C5 at concrete command strings. -/
theorem C5_command_substitution_witness :
    (create_benchmarker_container sampleConfig
        ["wrk -H tfb-server http://tfb-server:8080/json", "wrk"]).options.cmds =
      ["wrk -H 10.0.0.1 http://10.0.0.1:8080/json", "wrk"] ∧
    replaceStr tfb_server_placeholder sampleConfig.server_host "wrk" = "wrk" := by
  have h := C5_command_substitution sampleConfig
    ["wrk -H tfb-server http://tfb-server:8080/json", "wrk"]
  refine ⟨?_, h.2.1 "wrk" (by decide)⟩
  rw [h.1]
  decide

/-- Claim C9: `create_verifier_container` injects exactly the environment
variables MODE (`"verify"` for verify mode, `"benchmark"` for benchmark
mode), PORT, ENDPOINT, TEST_TYPE, CONCURRENCY_LEVELS and
PIPELINE_CONCURRENCY_LEVELS, plus DATABASE exactly when the orchestration
carries a database name; `create_database_verifier_container` uses the same
fixed verifier image with MODE `"database"`, placeholder values PORT `"0"`,
ENDPOINT `""` and TEST_TYPE `""`, and always sets DATABASE. -/
theorem C9_verifier_env (config : DockerConfig) (orchestration : DockerOrchestration)
    (mode : Mode) (test_type : String × String) (database_name : String) :
    ((create_verifier_container config orchestration mode test_type).options.env =
      [("MODE", mode_env_value mode),
       ("PORT", orchestration.host_internal_port),
       ("ENDPOINT", test_type.2),
       ("TEST_TYPE", test_type.1),
       ("CONCURRENCY_LEVELS", config.concurrency_levels),
       ("PIPELINE_CONCURRENCY_LEVELS", config.pipeline_concurrency_levels)] ++
        (match orchestration.database_name with
         | some d => [("DATABASE", d)]
         | none => [])) ∧
    (mode_env_value Mode.Verify = "verify" ∧
      mode_env_value Mode.Benchmark = "benchmark") ∧
    ((create_verifier_container config orchestration mode test_type).options.env.lookup
        "DATABASE" = orchestration.database_name) ∧
    ((create_database_verifier_container config database_name).options.env =
      [("MODE", "database"), ("PORT", "0"), ("ENDPOINT", ""), ("TEST_TYPE", ""),
       ("CONCURRENCY_LEVELS", config.concurrency_levels),
       ("PIPELINE_CONCURRENCY_LEVELS", config.pipeline_concurrency_levels),
       ("DATABASE", database_name)]) ∧
    ((create_database_verifier_container config database_name).options.image =
      (create_verifier_container config orchestration mode test_type).options.image) := by
  obtain ⟨port, dbn⟩ := orchestration
  refine ⟨?_, ⟨rfl, rfl⟩, ?_, rfl, rfl⟩
  · cases dbn <;> rfl
  · cases dbn <;> rfl

/-- Claim C6: `start_benchmark_command_retrieval_container` follows the
sequence start, block until exit, fetch historical logs through the command
listener, then optional cleanup, returning the typed `BenchmarkCommands`
when the listener produced one and failing with
`FailedBenchmarkCommandRetrievalError` exactly when the container exited
without the listener producing the expected structured result. -/
theorem C6_command_retrieval (cfg : DockerConfig) (eng : Engine)
    (hstart : eng.start_ok = true) (hwait : eng.wait_ok = true)
    (hlogs : eng.logs_transport_ok = true)
    (hdel : cfg.clean_up = true → eng.delete_ok = true) :
    ((start_benchmark_command_retrieval_container cfg eng).1.map Prod.fst =
      [EngineCall.startContainer, EngineCall.waitForExit, EngineCall.getContainerLogs] ++
        (if cfg.clean_up then [EngineCall.deleteContainer] else [])) ∧
    ((start_benchmark_command_retrieval_container cfg eng).2 =
      match eng.listener_commands with
      | some commands => Except.ok commands
      | none => Except.error ToolsetError.FailedBenchmarkCommandRetrievalError) ∧
    (((start_benchmark_command_retrieval_container cfg eng).2 =
        Except.error ToolsetError.FailedBenchmarkCommandRetrievalError) ↔
      eng.listener_commands = none) := by
  cases hcu : cfg.clean_up with
  | false =>
    simp only [start_benchmark_command_retrieval_container, hstart, hwait, hlogs, hcu]
    rcases hlc : eng.listener_commands with _ | commands <;> simp [hlc]
  | true =>
    have hd := hdel hcu
    simp only [start_benchmark_command_retrieval_container, hstart, hwait, hlogs, hcu, hd]
    rcases hlc : eng.listener_commands with _ | commands <;> simp [hlc]

/-- Witness for C6 at the all-successful sample engine. -/
theorem C6_command_retrieval_witness :
    (start_benchmark_command_retrieval_container sampleConfig sampleEngine).1.map Prod.fst =
      [EngineCall.startContainer, EngineCall.waitForExit, EngineCall.getContainerLogs,
       EngineCall.deleteContainer] ∧
    (start_benchmark_command_retrieval_container sampleConfig sampleEngine).2 =
      Except.ok { commands := ["wrk -c 256 http://tfb-server:8080/json"] } := by
  have h := C6_command_retrieval sampleConfig sampleEngine rfl rfl rfl (fun _ => rfl)
  refine ⟨?_, ?_⟩
  · rw [h.1]
    rfl
  · rw [h.2.1]
    rfl

/-- Counterexample to claim C3: with cleanup enabled, a transport error from
the teardown `delete_container` call inside
`start_benchmark_command_retrieval_container` is propagated by `?`, so the
enclosing orchestration operation returns an error instead of swallowing
it — even though the container ran to completion and the listener produced
its result. -/
theorem C3_counterexample :
    sampleConfig.clean_up = true ∧
    ({ sampleEngine with delete_ok := false } : Engine).listener_commands.isSome = true ∧
    (start_benchmark_command_retrieval_container sampleConfig
        { sampleEngine with delete_ok := false }).2 =
      Except.error (ToolsetError.DockerError EngineCall.deleteContainer) :=
  ⟨rfl, rfl, rfl⟩

/-- Claim C3 (amended): the teardown invocations performed by
`stop_docker_container_future` (kill container, delete container, delete
image, delete dangling images) swallow transport errors: the function's call
sequence, termination behavior and final state are independent of those
calls' results, and its type admits no error return. (The cleanup
`delete_container` in the one-shot start functions, by contrast, propagates
its transport error.) -/
theorem C3_teardown_swallowed (sock cleanup : Bool) (eng eng2 : Engine)
    (st : DockerContainerIdFuture) :
    (stop_docker_container_future sock cleanup eng st).map
        (fun r => (r.1.map Prod.fst, r.2)) =
      (stop_docker_container_future sock cleanup eng2 st).map
        (fun r => (r.1.map Prod.fst, r.2)) := by
  obtain ⟨rw_flag, cid, img, host⟩ := st
  cases rw_flag <;> cases cid <;> cases img <;> cases cleanup <;>
    simp [stop_docker_container_future, DockerContainerIdFuture.poll,
      DockerContainerIdFuture.unregister]

/-- Claim C7: stopping a `DockerContainerIdFuture` that is already
unregistered (no container id recorded, no wait required) issues no engine
call, leaves the state unchanged and does not error; and after any
successful stop the resulting state makes a second stop exactly such a
no-op. -/
theorem C7_stop_idempotent (sock cleanup : Bool) (eng : Engine) :
    (∀ st : DockerContainerIdFuture, st.container_id = none →
      st.requires_wait_to_stop = false →
      stop_docker_container_future sock cleanup eng st = some ([], st)) ∧
    (∀ (st0 st1 : DockerContainerIdFuture) (t : List (EngineCall × Bool))
       (sock2 cleanup2 : Bool) (eng2 : Engine),
      stop_docker_container_future sock cleanup eng st0 = some (t, st1) →
      stop_docker_container_future sock2 cleanup2 eng2 st1 = some ([], st1)) := by
  constructor
  · intro st hid hrw
    exact stop_of_no_wait sock cleanup eng st hrw
  · intro st0 st1 t sock2 cleanup2 eng2 h
    exact stop_of_no_wait sock2 cleanup2 eng2 st1 (stop_final_no_wait _ _ _ _ _ _ h)

/-- Witness for C7: a stop of an unregistered future is a no-op, and so is a
second stop right after a successful stop of a registered future. -/
theorem C7_stop_idempotent_witness :
    stop_docker_container_future true true sampleEngine
        ⟨false, none, none, "hostA"⟩ = some ([], ⟨false, none, none, "hostA"⟩) ∧
    stop_docker_container_future true true sampleEngine
        ⟨false, none, none, "hostB"⟩ = some ([], ⟨false, none, none, "hostB"⟩) := by
  have h := C7_stop_idempotent true true sampleEngine
  refine ⟨h.1 _ rfl rfl, ?_⟩
  exact h.2 ⟨true, some "cid", none, "hostB"⟩ ⟨false, none, none, "hostB"⟩
    [(EngineCall.killContainer, true), (EngineCall.deleteContainer, true)]
    true true sampleEngine (by rfl)

/-- Claim C8: in `stop_docker_container_future`, a failing kill call does not
stop the teardown: with cleanup enabled the container is still deleted and
the future is unregistered (container id cleared, wait no longer
required). -/
theorem C8_kill_failure (sock : Bool) (eng : Engine) (st : DockerContainerIdFuture)
    (cid : String) (hrw : st.requires_wait_to_stop = true)
    (hid : st.container_id = some cid) (hkill : eng.kill_ok = false) :
    stop_docker_container_future sock true eng st =
      some ((EngineCall.killContainer, false) ::
        (EngineCall.deleteContainer, eng.delete_ok) ::
          (match st.image_id with
           | some _ => [(EngineCall.deleteImage, eng.delete_image_ok),
                        (EngineCall.deleteUnusedImages, eng.delete_unused_ok)]
           | none => []),
        { requires_wait_to_stop := false, container_id := none, image_id := none,
          docker_host := st.docker_host }) := by
  obtain ⟨rw_flag, cid0, img, host⟩ := st
  subst hrw
  subst hid
  cases img <;>
    simp [stop_docker_container_future, DockerContainerIdFuture.poll,
      DockerContainerIdFuture.unregister, hkill]

/-- Witness for C8 at a concrete registered future with a recorded image. -/
theorem C8_kill_failure_witness :
    stop_docker_container_future true true { sampleEngine with kill_ok := false }
        ⟨true, some "cid", some "img", "hostC"⟩ =
      some ([(EngineCall.killContainer, false), (EngineCall.deleteContainer, true),
             (EngineCall.deleteImage, true), (EngineCall.deleteUnusedImages, true)],
        ⟨false, none, none, "hostC"⟩) := by
  have h := C8_kill_failure true { sampleEngine with kill_ok := false }
    ⟨true, some "cid", some "img", "hostC"⟩ "cid" rfl rfl rfl
  simpa using h

/-- Claim C1, evaluated at the failing schedule: the interleaving in which
the spawned attach thread runs only after the original thread has issued
start is a valid complete execution of the thread systems of both
`start_container` and `start_verification_container`; in it the
start-container call (and, for the verification role, even the exit wait) is
issued before the attach call, which `thread::spawn` alone cannot
prevent. -/
theorem C1_start_before_attach_schedule :
    (ThreadExec start_container_program none
      [ContainerAct.spawnAttachThread, ContainerAct.startContainer,
       ContainerAct.attachToContainer] ∧
     [ContainerAct.spawnAttachThread, ContainerAct.startContainer,
      ContainerAct.attachToContainer].indexOf ContainerAct.startContainer <
       [ContainerAct.spawnAttachThread, ContainerAct.startContainer,
        ContainerAct.attachToContainer].indexOf ContainerAct.attachToContainer) ∧
    ThreadExec start_verification_program none
      [ContainerAct.spawnAttachThread, ContainerAct.startContainer,
       ContainerAct.waitForExit, ContainerAct.attachToContainer] := by
  refine ⟨⟨?_, by decide⟩, ?_⟩
  · exact ThreadExec.spawnStep _ _
      (ThreadExec.mainStep _ _ _ _ (by decide)
        (ThreadExec.spawnedStep _ _ _ _ ThreadExec.done))
  · exact ThreadExec.spawnStep _ _
      (ThreadExec.mainStep _ _ _ _ (by decide)
        (ThreadExec.mainStep _ _ _ _ (by decide)
          (ThreadExec.spawnedStep _ _ _ _ ThreadExec.done)))

end TFB
